import Mathlib

/-!
Verification development for the NewAPI check-in script (`checkin.py`).

The script performs, per configured account, a sequence of HTTP calls
(profile fetch, check-in, history fetch), aggregates per-account outcomes,
formats a notification message, and exits with a status code reflecting
the overall result.

The embedding below models:
* Python/JSON values as the inductive `Json` (JSON numbers are modeled as
  integers; quotas and identifiers in this API are integral),
* the network as explicit response values passed in (the `requests` calls
  are external I/O; each call site receives its response as a parameter),
* Python exceptions in the driver loop as `Except String`,
* Python `dict.get`, truthiness, `str()` and string methods directly.
-/

/-- JSON / Python values as produced by `json.loads`. Object fields are kept
in insertion order; `json.loads` keeps the last occurrence of a duplicate
key, which `olookup` mirrors. Numbers are modeled as integers. -/
inductive Json where
  | null : Json
  | bool : Bool → Json
  | num : Int → Json
  | str : String → Json
  | arr : List Json → Json
  | obj : List (String × Json) → Json
deriving Repr

/-- Python dict lookup (last write wins, matching `json.loads` duplicate-key
handling): `o[k]` / `k in o` combined, `none` when the key is absent. -/
def olookup (o : List (String × Json)) (k : String) : Option Json :=
  o.foldl (fun acc kv => if kv.1 = k then some kv.2 else acc) none

/-- Python `d.get(k, default)`. -/
def oget (o : List (String × Json)) (k : String) (default : Json) : Json :=
  (olookup o k).getD default

/-- Python truthiness of a JSON-derived value. -/
def pyTruthy : Json → Bool
  | .null => false
  | .bool b => b
  | .num n => n != 0
  | .str s => s ≠ ""
  | .arr l => !l.isEmpty
  | .obj o => !o.isEmpty

/-- Python `repr()` restricted to JSON-derived values (string escaping inside
`repr` of a `str` is approximated by plain quoting; no claim depends on it). -/
def pyRepr : Json → String
  | .null => "None"
  | .bool true => "True"
  | .bool false => "False"
  | .num n => toString n
  | .str s => "\x27" ++ s ++ "\x27"
  | .arr l => "[" ++ String.intercalate ", " (l.attach.map fun x => pyRepr x.1) ++ "]"
  | .obj o =>
      "\x7b" ++
        String.intercalate ", "
          (o.attach.map fun x => "\x27" ++ x.1.1 ++ "\x27: " ++ pyRepr x.1.2) ++
      "\x7d"
decreasing_by
  · have := List.sizeOf_lt_of_mem x.2; simp at *; omega
  · obtain ⟨⟨a, b⟩, hm⟩ := x
    have := List.sizeOf_lt_of_mem hm; simp at *; omega

/-- Python `str()` on a JSON-derived value (as used inside f-strings). -/
def pyStr : Json → String
  | .str s => s
  | v => pyRepr v

/-- Python type name of a JSON-derived value, as it appears in
`AttributeError` messages. -/
def pyTypeName : Json → String
  | .null => "NoneType"
  | .bool _ => "bool"
  | .num _ => "int"
  | .str _ => "str"
  | .arr _ => "list"
  | .obj _ => "dict"

/-- The `AttributeError` text raised by `v.get(...)` when `v` is not a dict. -/
def noGetAttrMsg (v : Json) : String :=
  "\x27" ++ pyTypeName v ++ "\x27 object has no attribute \x27get\x27"

/-- Value of `n / den` scaled to two decimal places, rounded half-to-even — the value
printed by Python's `f"{n/den:.2f}"` for the quotients exercised here (the
CPython path goes through a binary double; it agrees with exact rational
rounding whenever `n/den` is exactly representable, which covers the
threshold and scenario values of the spec, but can differ on ties of
non-representable quotients: 1015/1000 is "1.02" here and "1.01" in
CPython, whose double for 1.015 falls just below the tie). Expressed in
hundredths. -/
def round2HalfEven (n den : Nat) : Nat :=
  let m := n * 100
  let q := m / den
  let r := m % den
  if 2 * r < den then q
  else if den < 2 * r then q + 1
  else if q % 2 = 0 then q else q + 1

/-- Render `n / den` with exactly two decimal places (Python `f"{...:.2f}"`). -/
def fmt2 (n den : Nat) : String :=
  let v := round2HalfEven n den
  let ip := v / 100
  let fp := v % 100
  toString ip ++ "." ++ (if fp < 10 then "0" ++ toString fp else toString fp)

/-- The quota-formatting expression of `checkin.py` (lines 105-110 inside
`format_telegram_message`, likewise lines 522-527 of `main`):
`quota >= 1000000 → f"{quota/1000000:.2f}M"`, `quota >= 1000 →
f"{quota/1000:.2f}K"`, otherwise `str(quota)`. -/
def formatQuotaStr (quota : Int) : String :=
  if 1000000 ≤ quota then fmt2 quota.toNat 1000000 ++ "M"
  else if 1000 ≤ quota then fmt2 quota.toNat 1000 ++ "K"
  else toString quota

/-- An account descriptor as built by `parse_accounts` (a Python dict; fields
from the JSON form can be arbitrary JSON values, the delimited form always
produces strings). `user_id` / `cf_clearance` are `none` when the key is
absent from the dict. -/
structure Account where
  url : Json
  session : Json
  name : Json
  user_id : Option Json
  cf_clearance : Option Json
deriving Repr

/-- Python whitespace as stripped by `str.strip()`. Known approximation:
this covers space/tab/CR/LF but not `\x0b`, `\x0c` or Unicode spaces that
Python would also strip — the URLs and session tokens in scope are
URL-safe, and the whitespace-free hypotheses of the theorems below exclude
all of these anyway. -/
def isPyWs (c : Char) : Bool := c.isWhitespace

/-- Python `str.strip()` on a character list: drop leading and trailing whitespace. -/
def pyStripL (l : List Char) : List Char :=
  ((l.dropWhile isPyWs).reverse.dropWhile isPyWs).reverse

/-- Python `str.strip()`. -/
def pyStrip (s : String) : String := String.mk (pyStripL s.data)

/-- Python `str.split(sep)` for a one-character separator: splits on every
occurrence, keeping empty segments (`"".split(",") == [""]`). -/
def pySplit (sep : Char) : List Char → List (List Char)
  | [] => [[]]
  | c :: cs =>
      if c = sep then [] :: pySplit sep cs
      else
        match pySplit sep cs with
        | [] => [[c]]
        | p :: ps => (c :: p) :: ps

/-- Python `str.split(sep, 1)` restricted to inputs containing the separator:
everything before the first occurrence, and the untouched remainder. -/
def splitFirst (sep : Char) : List Char → List Char × List Char
  | [] => ([], [])
  | c :: cs =>
      if c = sep then ([], cs)
      else
        let p := splitFirst sep cs
        (c :: p.1, p.2)

/-- Does `needle` match at the head of the second list? (Helper for the
Python `in` substring test.) -/
def leadMatch : List Char → List Char → Bool
  | [], _ => true
  | n :: ns, h :: hs => if n = h then leadMatch ns hs else false
  | _, [] => false

/-- Python `needle in haystack` on strings: substring containment. -/
def hasSubstring (needle : List Char) : List Char → Bool
  | [] => needle.isEmpty
  | b :: bs => leadMatch needle (b :: bs) || hasSubstring needle bs

/-- The delimited branch of `parse_accounts` (lines 429-437): split the
configuration on commas; for each stripped part containing `#`, split on the
first `#` into URL and session (both stripped again, `name` empty); parts
without `#` are skipped. -/
def delimitedParse (s : String) : List Account :=
  (pySplit ',' s.data).filterMap fun part =>
    let p := pyStripL part
    if p.contains '#' then
      let us := splitFirst '#' p
      some ⟨.str (String.mk (pyStripL us.1)), .str (String.mk (pyStripL us.2)),
            .str "", none, none⟩
    else none

/-- One element of the JSON-list branch of `parse_accounts` (lines 410-423):
dict items carrying both `url` and `session` become accounts (with `name`
defaulting to `""` and optional `user_id` / `cf_clearance`); any other
element is skipped. -/
def accountOfItem : Json → Option Account
  | .obj o =>
      match olookup o "url", olookup o "session" with
      | some u, some se =>
          some ⟨u, se, oget o "name" (.str ""), olookup o "user_id",
                olookup o "cf_clearance"⟩
      | _, _ => none
  | _ => none

/-- The function `parse_accounts` (lines 392-439), parameterized by `loads`, the behavior
of the external `json.loads` (`none` models a raised `JSONDecodeError`).
Empty input returns `[]` before `json.loads` is consulted. When `loads`
yields a list, the function returns inside the `isinstance(data, list)`
branch; when it yields any non-list value, control falls through to the
delimited parsing loop, exactly as in the source. -/
def parse_accounts (loads : String → Option Json) (accounts_str : String) :
    List Account :=
  if accounts_str = "" then []
  else
    match loads accounts_str with
    | some (.arr items) => items.filterMap accountOfItem
    | _ => delimitedParse accounts_str

/-- An HTTP response as seen through `requests`: status code, raw body text,
and the result of `resp.json()` (`none` models a raised `JSONDecodeError`). -/
structure HttpResponse where
  status : Nat
  text : String
  json : Option Json

/-- The result dict built by `NewAPICheckin.checkin` (lines 318-323):
`success`, `message`, `checkin_date`, `quota_awarded`. `message` and the two
data fields hold arbitrary JSON-derived Python values (`.null` is Python
`None`); `message` starts as the empty string. -/
structure CheckinResult where
  success : Bool
  message : Json
  checkin_date : Json
  quota_awarded : Json
deriving Repr

/-- The body preview interpolated on a JSON decode failure (line 338):
`resp.text[:200] if resp.text else '(空响应)'`. -/
def bodyPreview (text : String) : String :=
  if text = "" then "(空响应)" else text.take 200

/-- The method `NewAPICheckin.checkin` (lines 307-364) applied to the HTTP response of
`POST /api/user/checkin`:
* status 401 is checked before JSON parsing;
* a JSON decode failure reports the status code and a 200-character body
  preview;
* on 200 with truthy `success`, `result['success']` and `result['message']`
  are assigned first; `data.get('data', {})` then feeds two `.get` calls —
  when the `data` field holds a non-dict value (e.g. JSON `null`) that
  raises `AttributeError`, which the enclosing `except Exception` turns into
  a `'未知错误: ...'` message while `success` remains `True` and both data
  fields remain `None`;
* on 200 with falsy `success`, or any other status, only the message is set
  (when the whole body is a non-dict JSON value, the `.get` call on it
  raises and is likewise converted into a `'未知错误: ...'` message). -/
def checkinOfResp (resp : HttpResponse) : CheckinResult :=
  if resp.status = 401 then
    ⟨false, .str "认证失败: Session 可能已过期，请重新获取", .null, .null⟩
  else
    match resp.json with
    | none =>
        ⟨false,
         .str ("响应格式错误 (HTTP " ++ toString resp.status ++ "): " ++
               bodyPreview resp.text),
         .null, .null⟩
    | some d =>
        if resp.status = 200 then
          match d with
          | .obj o =>
              if pyTruthy (oget o "success" .null) then
                let msg := oget o "message" (.str "签到成功")
                match olookup o "data" with
                | none => ⟨true, msg, .null, .null⟩
                | some (.obj dl) =>
                    ⟨true, msg, oget dl "checkin_date" .null,
                     oget dl "quota_awarded" .null⟩
                | some v =>
                    ⟨true, .str ("未知错误: " ++ noGetAttrMsg v), .null, .null⟩
              else
                ⟨false, oget o "message" (.str "签到失败"), .null, .null⟩
          | _ => ⟨false, .str ("未知错误: " ++ noGetAttrMsg d), .null, .null⟩
        else
          match d with
          | .obj o =>
              ⟨false,
               .str ("HTTP " ++ toString resp.status ++ ": " ++
                     pyStr (oget o "message" (.str "未知错误"))),
               .null, .null⟩
          | _ => ⟨false, .str ("未知错误: " ++ noGetAttrMsg d), .null, .null⟩

/-- The outcome of the `session.post` call inside `checkin`: a response, or
one of the transport exceptions handled at lines 357-362. -/
inductive NetOutcome where
  | ok (resp : HttpResponse)
  | timeout
  | requestError (e : String)
  | otherError (e : String)

/-- The method `NewAPICheckin.checkin` including its transport-exception handlers:
`Timeout` → `'请求超时'`, `RequestException` → `'网络请求失败: ...'`, any
other exception → `'未知错误: ...'`; all leave `success` as `False`. -/
def checkin_op : NetOutcome → CheckinResult
  | .ok resp => checkinOfResp resp
  | .timeout => ⟨false, .str "请求超时", .null, .null⟩
  | .requestError e => ⟨false, .str ("网络请求失败: " ++ e), .null, .null⟩
  | .otherError e => ⟨false, .str ("未知错误: " ++ e), .null, .null⟩

/-- The method `NewAPICheckin.get_user_info` (lines 240-305) applied to the
outcome of `GET /api/user/self`. The whole body sits in a `try` whose
handlers return `None`, so transport errors, non-JSON bodies, non-dict
bodies (whose `.get` raises `AttributeError`) and the errors raised inside
the `if user_data and 'id' in user_data` header update are all swallowed.
On HTTP 200 with truthy `success` the method returns the `data` value
itself — which need not be a dict: for a truthy string `'id' in user_data`
is a substring test and for a truthy list a membership test, and only when
that test succeeds does `user_data['id']` raise a `TypeError` (caught,
`None`); a truthy number or bool makes the `in` itself raise (caught,
`None`). A falsy `data` value is returned as-is (Python `None` is the
`none` of this model). The method's side effect (adopting the profile's
`id` as the resolved user id and request header) only affects later HTTP
requests, which this model receives as explicit responses. -/
def get_user_info : NetOutcome → Option Json
  | .ok resp =>
      if resp.status = 401 then none
      else
        match resp.json with
        | none => none
        | some d =>
            if resp.status = 200 then
              match d with
              | .obj o =>
                  if pyTruthy (oget o "success" .null) then
                    let ud := oget o "data" .null
                    if pyTruthy ud then
                      match ud with
                      | .obj _ => some ud
                      | .str s =>
                          if hasSubstring "id".data s.data then none
                          else some ud
                      | .arr l =>
                          if l.any fun j =>
                               match j with
                               | .str s2 => s2 = "id"
                               | _ => false
                          then none else some ud
                      | _ => none
                    else
                      match ud with
                      | .null => none
                      | _ => some ud
                  else none
              | _ => none
            else none
  | _ => none

/-- The per-account dict appended to `checkin_results` in `main`
(lines 502-508 and the updates at 546-554). `checkin_count` and
`quota_awarded` stay `None` for failed accounts. -/
structure AccountResult where
  name : Json
  success : Bool
  message : Json
  quota_awarded : Json
  checkin_count : Json
deriving Repr

/-- The remote data consumed for one account inside the `main` loop: the
profile call's outcome (`GET /api/user/self`, consumed by
`get_user_info`), the check-in call's outcome, and the value returned by
`client.get_checkin_history()` (a Python `Optional[dict]`; `none` is
Python `None`). -/
structure AccountNet where
  profile : NetOutcome
  checkin : NetOutcome
  history : Option Json

/-- Lines 489-496 of `main`: the profile display block runs outside any
`try`. A falsy `user_info` only prints a notice; a truthy non-dict
`user_info` crashes `main` at `user_info.get('username', '未知')`
(`AttributeError`); with a dict, a username that is not a string crashes at
`len(username)` (unsized values), at the `username[:3] + '***'`
concatenation (lists longer than 3), or at the slice itself (dicts longer
than 3) — only sized values of length at most 3 fall through to the
literal `'***'` branch harmlessly. -/
def profileCheck : Option Json → Except String Unit
  | none => .ok ()
  | some ui =>
      if pyTruthy ui then
        match ui with
        | .obj o =>
            match oget o "username" (.str "未知") with
            | .str _ => .ok ()
            | .arr l =>
                if 3 < l.length then
                  .error "TypeError: can only concatenate list (not \x22str\x22) to list"
                else .ok ()
            | .obj o2 =>
                if 3 < o2.length then
                  .error "TypeError: unhashable type: \x27slice\x27"
                else .ok ()
            | v =>
                .error ("TypeError: object of type \x27" ++ pyTypeName v ++
                        "\x27 has no len()")
        | _ => .error ("AttributeError: " ++ noGetAttrMsg ui)
      else .ok ()

/-- Lines 519-528 of `main`: the quota display block runs only when
`result['quota_awarded']` is truthy; its `>=` comparisons raise `TypeError`
for truthy non-numeric values (`bool` is an `int` in Python and compares
fine). The formatted string only feeds `print`, so the block matters to the
outcome only through the exception it may raise. -/
def quotaCheck (quota : Json) : Except String Unit :=
  if pyTruthy quota then
    match quota with
    | .num _ => .ok ()
    | .bool _ => .ok ()
    | _ => .error ("TypeError: \x27>=\x27 not supported between instances of \x27" ++
                   pyTypeName quota ++ "\x27 and \x27int\x27")
  else .ok ()

/-- Lines 531-543 of `main`: derive the monthly `checkin_count` from the
history data. `checkin_count` starts at `0`; when the history value is
truthy its `.get('stats')` is consulted (raising `AttributeError` on a
non-dict history), and a truthy `stats` yields
`stats.get('checkin_count', 0)` (raising on a non-dict `stats`); the
`total_quota` display comparison raises `TypeError` when
`stats.get('total_quota', 0)` is truthy-checked against integers with a
non-numeric value. -/
def statsCheck (history : Option Json) : Except String Json :=
  match history with
  | none => .ok (.num 0)
  | some h =>
      if pyTruthy h then
        match h with
        | .obj o =>
            let stats := oget o "stats" .null
            if pyTruthy stats then
              match stats with
              | .obj so =>
                  let cc := oget so "checkin_count" (.num 0)
                  let tq := oget so "total_quota" (.num 0)
                  match tq with
                  | .num _ => .ok cc
                  | .bool _ => .ok cc
                  | _ => .error ("TypeError: \x27>=\x27 not supported between instances of \x27" ++
                                 pyTypeName tq ++ "\x27 and \x27int\x27")
              | _ => .error ("AttributeError: " ++ noGetAttrMsg stats)
            else .ok (.num 0)
        | _ => .error ("AttributeError: " ++ noGetAttrMsg h)
      else .ok (.num 0)

/-- One iteration of the account loop in `main` (lines 474-556), producing
the account's entry of `checkin_results` or the text of an uncaught
exception. `i` is the 1-based loop index (`enumerate(accounts, 1)`); the
displayed name defaults to `账号{i}` when the parsed `name` is falsy.
`NewAPICheckin.__init__` calls `base_url.rstrip('/')`, which raises
`AttributeError` for a non-string url (possible via the JSON account
form); the session and `cf_clearance` values go through
`cookies.set`, which accepts arbitrary values, and a non-string session
only makes the advisory id derivation fail silently — so they cannot
crash. After construction come the profile display block (lines 489-496,
`profileCheck`) and the check-in; on success the quota display
(`quotaCheck`) and history statistics (`statsCheck`) may raise. The
check-in result's `message` and `quota_awarded` are copied into the
outcome on success; on failure the outcome keeps `quota_awarded = None`
and `checkin_count = None` and the failure path itself (lines 551-556)
raises nothing. -/
def processAccount (i : Nat) (acc : Account) (net : AccountNet) :
    Except String AccountResult :=
  match acc.url with
  | .str _ =>
      let name : Json :=
        if pyTruthy acc.name then acc.name else .str ("账号" ++ toString i)
      match profileCheck (get_user_info net.profile) with
      | .error e => .error e
      | .ok _ =>
          let result := checkin_op net.checkin
          if result.success then
            match quotaCheck result.quota_awarded with
            | .error e => .error e
            | .ok _ =>
                match statsCheck net.history with
                | .error e => .error e
                | .ok cc =>
                    .ok ⟨name, true, result.message, result.quota_awarded, cc⟩
          else
            .ok ⟨name, false, result.message, .null, .null⟩
  | u =>
      .error ("AttributeError: \x27" ++ pyTypeName u ++
              "\x27 object has no attribute \x27rstrip\x27")

/-- The aggregation state of `main`: `success_count`, `fail_count`, and the
ordered `checkin_results` list. -/
structure RunAgg where
  success_count : Nat
  fail_count : Nat
  results : List AccountResult
deriving Repr

/-- The account loop of `main` over the parsed list, starting at 1-based
index `i` and fetching each account's remote data from `net`. An uncaught
exception in any iteration aborts the whole loop (the Python process dies
with a traceback); otherwise every account contributes exactly one result,
in input order, and exactly one of the two counters is bumped per account. -/
def runAccounts (net : Nat → AccountNet) : Nat → List Account →
    Except String RunAgg
  | _, [] => .ok ⟨0, 0, []⟩
  | i, a :: rest =>
      match processAccount i a (net i) with
      | .error e => .error e
      | .ok r =>
          match runAccounts net (i + 1) rest with
          | .error e => .error e
          | .ok agg =>
              if r.success then
                .ok ⟨agg.success_count + 1, agg.fail_count, r :: agg.results⟩
              else
                .ok ⟨agg.success_count, agg.fail_count + 1, r :: agg.results⟩

/-- The observable ending of `main`: `configError` is `sys.exit(1)` before
any network call (missing `NEWAPI_ACCOUNTS` at line 460, or an empty parse
result at line 466); `crashed` is an uncaught exception escaping the account
loop (CPython exits with status 1); `completed` carries the aggregation and
the exit code decided at lines 584-586. -/
inductive MainResult where
  | configError
  | crashed (e : String)
  | completed (agg : RunAgg) (exit : Nat)

/-- The function `main` (lines 442-586) with notification delivery elided (senders are
best-effort, run after the counters are final, and do not influence the
exit path; no notification channel is configured in this model). -/
def mainRun (loads : String → Option Json) (accounts_str : String)
    (net : Nat → AccountNet) : MainResult :=
  if accounts_str = "" then .configError
  else if (parse_accounts loads accounts_str).isEmpty then .configError
  else
    match runAccounts net 1 (parse_accounts loads accounts_str) with
    | .error e => .crashed e
    | .ok agg =>
        .completed agg
          (if agg.fail_count = (parse_accounts loads accounts_str).length
           then 1 else 0)

/-- The process exit status for each `MainResult`. -/
def mainExitCode : MainResult → Nat
  | .configError => 1
  | .crashed _ => 1
  | .completed _ e => e

/-- The success line of `format_telegram_message` (lines 96-115): base text,
then — only when `quota_awarded` is truthy — the human-scaled quota in
`\(+...\)` (Python raises `TypeError` at the `>=` comparisons for a truthy
non-numeric quota, modeled as `none`; a truthy `bool` falls to the
`str(quota)` branch), then the monthly count whenever `checkin_count` is
not `None`. -/
def successLine (name msg quota cnt : Json) : Option String :=
  let base := "✅ *" ++ pyStr name ++ "*: " ++ pyStr msg
  let withQuota : Option String :=
    if pyTruthy quota then
      match quota with
      | .num n => some (base ++ " \\(+" ++ formatQuotaStr n ++ "\\)")
      | .bool _ => some (base ++ " \\(+" ++ pyStr quota ++ "\\)")
      | _ => none
    else some base
  withQuota.map fun l =>
    match cnt with
    | .null => l
    | c => l ++ " 本月已签" ++ pyStr c ++ "天"

/-- The failure line of `format_telegram_message` (lines 117-123): messages
longer than 50 are truncated to 47 characters plus `"..."`. `len(msg)` /
slicing are only defined for sized values; a non-string message either
raises there or at the string concatenation, modeled as `none` (`main`
always stores strings here except when the remote `message` field is a
non-string). -/
def failLine (name msg : Json) : Option String :=
  match msg with
  | .str s =>
      let m := if 50 < s.length then s.take 47 ++ "..." else s
      some ("❌ *" ++ pyStr name ++ "*: `" ++ m ++ "`")
  | _ => none

/-- The per-account detail lines of `format_telegram_message` (lines 92-125),
in order; `none` when any line raises. -/
def telegramLines : List AccountResult → Option (List String)
  | [] => some []
  | r :: rest =>
      let line :=
        if r.success then successLine r.name r.message r.quota_awarded r.checkin_count
        else failLine r.name r.message
      match line, telegramLines rest with
      | some l, some ls => some (l :: ls)
      | _, _ => none

/-- The function `format_telegram_message` (lines 65-130): overall status header, the
per-account lines, and a final status hashtag. -/
def format_telegram_message (results : List AccountResult)
    (execution_time : String) (total_accounts : Nat) : Option String :=
  let success_count := (results.filter (·.success)).length
  let fail_count := results.length - success_count
  let st :=
    if fail_count = 0 then ("✅", "全部成功")
    else if success_count = 0 then ("❌", "全部失败")
    else ("⚠️", "部分成功")
  (telegramLines results).map fun ls =>
    String.intercalate "\n"
      ([st.1 ++ " *NewAPI 签到报告*", "",
        "⏰ 执行时间: `" ++ execution_time ++ "`",
        "📊 总计: " ++ toString total_accounts ++ " 个账号 | 成功 " ++
          toString success_count ++ " | 失败 " ++ toString fail_count,
        ""] ++ ls ++ ["", "#" ++ (st.2.replace " " "_")])

/-- The base64 alphabet value of a character, `none` for everything else
(including `=`). -/
def b64Char (c : Char) : Option Nat :=
  if 'A' ≤ c ∧ c ≤ 'Z' then some (c.toNat - 65)
  else if 'a' ≤ c ∧ c ≤ 'z' then some (c.toNat - 97 + 26)
  else if '0' ≤ c ∧ c ≤ '9' then some (c.toNat - 48 + 52)
  else if c = '+' then some 62
  else if c = '/' then some 63
  else none

/-- Decode a run of 6-bit base64 values into bytes: full quartets give three
bytes, a trailing pair or triple gives one or two bytes (the padded form
the script always produces by appending `==`). -/
def b64Quads : List Nat → List Nat
  | a :: b :: c :: d :: rest =>
      (a * 4 + b / 16) :: (b % 16 * 16 + c / 4) :: (c % 4 * 64 + d) ::
        b64Quads rest
  | [a, b] => [a * 4 + b / 16]
  | [a, b, c] => [a * 4 + b / 16, b % 16 * 16 + c / 4]
  | _ => []

/-- Python `base64.b64decode` in its default lenient mode, as called at line 216:
characters outside the alphabet (including the appended `=` padding) are
discarded; a leftover of exactly one 6-bit group raises `binascii.Error`
(`none`); otherwise the groups decode to bytes. Known approximation: a
mid-stream `==` after a partial quad makes CPython stop decoding there,
while this model keeps decoding the remaining alphabet characters — the
decoded-byte difference cannot affect the totality/digit-shape facts proved
about the derivation. -/
def b64decode (s : String) : Option (List Nat) :=
  let vals := s.data.filterMap b64Char
  if vals.length % 4 = 1 then none else some (b64Quads vals)

/-- Is `b` a UTF-8 continuation byte? -/
def isCont (b : Nat) : Bool := 0x80 ≤ b ∧ b < 0xC0

/-- Python `bytes.decode('utf-8', errors='ignore')` as fuel-indexed recursion (the
fuel is the byte count; every step consumes at least one byte): well-formed
sequences (surrogates and overlong forms rejected, as CPython does) decode
to their scalar; ill-formed bytes are dropped, advancing past the offending
lead byte. -/
def utf8IgnoreAux : Nat → List Nat → List Char
  | 0, _ => []
  | _, [] => []
  | fuel + 1, b :: bs =>
      if b < 0x80 then Char.ofNat b :: utf8IgnoreAux fuel bs
      else if 0xC2 ≤ b ∧ b ≤ 0xDF then
        match bs with
        | b2 :: bs2 =>
            if isCont b2 then
              Char.ofNat ((b - 0xC0) * 64 + (b2 - 0x80)) :: utf8IgnoreAux fuel bs2
            else utf8IgnoreAux fuel (b2 :: bs2)
        | [] => []
      else if 0xE0 ≤ b ∧ b ≤ 0xEF then
        match bs with
        | b2 :: b3 :: bs3 =>
            if (if b = 0xE0 then 0xA0 ≤ b2 ∧ b2 < 0xC0
                else if b = 0xED then 0x80 ≤ b2 ∧ b2 < 0xA0
                else isCont b2) ∧ isCont b3 then
              Char.ofNat ((b - 0xE0) * 4096 + (b2 - 0x80) * 64 + (b3 - 0x80)) ::
                utf8IgnoreAux fuel bs3
            else utf8IgnoreAux fuel (b2 :: b3 :: bs3)
        | _ => []
      else if 0xF0 ≤ b ∧ b ≤ 0xF4 then
        match bs with
        | b2 :: b3 :: b4 :: bs4 =>
            if (if b = 0xF0 then 0x90 ≤ b2 ∧ b2 < 0xC0
                else if b = 0xF4 then 0x80 ≤ b2 ∧ b2 < 0x90
                else isCont b2) ∧ isCont b3 ∧ isCont b4 then
              Char.ofNat ((b - 0xF0) * 262144 + (b2 - 0x80) * 4096 +
                  (b3 - 0x80) * 64 + (b4 - 0x80)) :: utf8IgnoreAux fuel bs4
            else utf8IgnoreAux fuel (b2 :: b3 :: b4 :: bs4)
        | _ => []
      else utf8IgnoreAux fuel bs

/-- Python `bytes.decode('utf-8', errors='ignore')` (line 217). -/
def utf8Ignore (bs : List Nat) : List Char := utf8IgnoreAux bs.length bs

/-- The separator shape between a pattern's literal and its digits:
one character from `[_-]`, or one-or-more from `[:\s]`. -/
inductive SepShape where
  | underscoreDash
  | colonWs

/-- A character of the `[:\s]` class (`\s` restricted to standard
whitespace; the identifiers in scope are ASCII). -/
def isColonWs (c : Char) : Bool := c = ':' ∨ c.isWhitespace

/-- Case-insensitive literal match (the pattern literals are ASCII
lowercase), returning the rest of the input on success. -/
def matchLower : List Char → List Char → Option (List Char)
  | [], rest => some rest
  | _, [] => none
  | l :: ls, c :: cs => if c.toLower = l then matchLower ls cs else none

/-- Match the separator class of a pattern, returning the rest. For
`colonWs`, greed is safe: the class is disjoint from `\d`, so consuming the
maximal run is exactly the regex behavior of `[:\s]+(\d+)`. -/
def matchSep : SepShape → List Char → Option (List Char)
  | .underscoreDash, c :: cs => if c = '_' ∨ c = '-' then some cs else none
  | .underscoreDash, [] => none
  | .colonWs, c :: cs =>
      if isColonWs c then some ((c :: cs).dropWhile isColonWs) else none
  | .colonWs, [] => none

/-- Try one of the script's patterns (`literal`, separator, `(\d+)`) anchored
at the start of `s`, returning the captured digit group. -/
def tryPatAt (lit : List Char) (k : SepShape) (s : List Char) :
    Option (List Char) :=
  match matchLower lit s with
  | none => none
  | some r1 =>
      match matchSep k r1 with
      | none => none
      | some r2 =>
          let ds := r2.takeWhile Char.isDigit
          if ds.isEmpty then none else some ds

/-- Python `re.search` for one pattern: leftmost match wins (the literals are
nonempty, so no pattern can match at the very end of the input). -/
def searchPat (lit : List Char) (k : SepShape) : List Char → Option (List Char)
  | [] => none
  | c :: cs =>
      match tryPatAt lit k (c :: cs) with
      | some ds => some ds
      | none => searchPat lit k cs

/-- The method `NewAPICheckin._extract_user_id_from_session` (lines 206-238): base64-
decode the cookie with `'=='` appended, decode the bytes as best-effort
UTF-8 text, and try the four patterns in source order — `linuxdo[_-](\d+)`,
`"id"[:\s]+(\d+)`, `user[_-](\d+)`, `userid[:\s]+(\d+)` — returning the
first pattern's leftmost digit capture. Every failure (decode error, no
match) yields `none`; the `except` swallows all exceptions. -/
def extract_user_id_from_session (session_cookie : String) : Option String :=
  match b64decode (session_cookie ++ "==") with
  | none => none
  | some bytes =>
      let t := utf8Ignore bytes
      match searchPat "linuxdo".data .underscoreDash t with
      | some ds => some (String.mk ds)
      | none =>
          match searchPat "\"id\"".data .colonWs t with
          | some ds => some (String.mk ds)
          | none =>
              match searchPat "user".data .underscoreDash t with
              | some ds => some (String.mk ds)
              | none =>
                  (searchPat "userid".data .colonWs t).map String.mk

/-- The monthly-count suffix appended by `format_telegram_message` when
`checkin_count is not None` (lines 113-115). -/
def cntSuffix : Json → String
  | .null => ""
  | c => " 本月已签" ++ pyStr c ++ "天"

/-- The scenario-A check-in response: HTTP 200,
`{"success":true,"message":"ok","data":{"checkin_date":"2024-01-01","quota_awarded":150000}}`. -/
def respA : HttpResponse :=
  ⟨200, "",
   some (.obj [("success", .bool true), ("message", .str "ok"),
               ("data", .obj [("checkin_date", .str "2024-01-01"),
                              ("quota_awarded", .num 150000)])])⟩

/-- An HTTP 200 check-in response whose `data` field is present but `null`:
`{"success":true,"message":"ok","data":null}`. -/
def respNullData : HttpResponse :=
  ⟨200, "",
   some (.obj [("success", .bool true), ("message", .str "ok"),
               ("data", .null)])⟩

/-- A `json.loads` behavior with the single valid-JSON input `"x#y"` (a JSON
string literal, not a list). -/
def loadsStrXY : String → Option Json :=
  fun s => if s = "\"x#y\"" then some (.str "x#y") else none

/-- A `json.loads` behavior that always yields one well-formed account
object in a JSON list. -/
def loadsOneItem : String → Option Json :=
  fun _ => some (.arr [.obj [("url", .str "https://x"), ("session", .str "tok")]])

/-- The two-account list used to exercise the aggregation run. -/
def accsW : List Account :=
  [⟨.str "https://a", .str "t1", .str "", none, none⟩,
   ⟨.str "https://b", .str "t2", .str "", none, none⟩]

/-- Remote data for `accsW`: account 1 checks in successfully, account 2
times out. -/
def netW : Nat → AccountNet :=
  fun i =>
    if i = 1 then
      ⟨.timeout, .ok ⟨200, "", some (.obj [("success", .bool true)])⟩, none⟩
    else ⟨.timeout, .timeout, none⟩

/-- The aggregation produced by running `accsW` against `netW`. -/
def aggW : RunAgg :=
  ⟨1, 1, [⟨.str "账号1", true, .str "签到成功", .null, .num 0⟩,
          ⟨.str "账号2", false, .str "请求超时", .null, .null⟩]⟩

/-- A `json.loads` behavior with the single valid input `[]` (the empty JSON
list). -/
def loadsEmptyList : String → Option Json :=
  fun s => if s = "[]" then some (.arr []) else none

/-- One delimited account whose check-in succeeds. -/
def netOne : Nat → AccountNet :=
  fun _ => ⟨.timeout, .ok ⟨200, "", some (.obj [("success", .bool true)])⟩, none⟩

/-- The aggregation produced by that single-account run. -/
def aggOne : RunAgg :=
  ⟨1, 0, [⟨.str "账号1", true, .str "签到成功", .null, .num 0⟩]⟩

/-! ### Theorems -/

theorem string_mk_data (s : String) : String.mk s.data = s := by
  cases s; rfl

theorem string_ne_empty_of_data_ne_nil {s : String} (h : s.data ≠ []) :
    s ≠ "" := by
  intro he; exact h (by simp [he])

theorem pySplit_append {sep : Char} {l1 l2 : List Char} (h : sep ∉ l1) :
    pySplit sep (l1 ++ sep :: l2) = l1 :: pySplit sep l2 := by
  induction l1 with
  | nil => simp [pySplit]
  | cons c cs ih =>
      have hc : c ≠ sep := fun he => h (he ▸ List.mem_cons_self c cs)
      have hcs : sep ∉ cs := fun hm => h (List.mem_cons_of_mem c hm)
      rw [List.cons_append]
      rw [pySplit, if_neg hc, ih hcs]

theorem pySplit_no_sep {sep : Char} {l : List Char} (h : sep ∉ l) :
    pySplit sep l = [l] := by
  induction l with
  | nil => rfl
  | cons c cs ih =>
      have hc : c ≠ sep := fun he => h (he ▸ List.mem_cons_self c cs)
      have hcs : sep ∉ cs := fun hm => h (List.mem_cons_of_mem c hm)
      rw [pySplit, if_neg hc, ih hcs]

theorem mem_of_mem_pySplit {sep c : Char} {l : List Char} {p : List Char}
    (hp : p ∈ pySplit sep l) (hc : c ∈ p) : c ∈ l := by
  induction l generalizing p with
  | nil =>
      simp [pySplit] at hp; subst hp; simp at hc
  | cons x xs ih =>
      by_cases hx : x = sep
      · rw [pySplit, if_pos hx] at hp
        rcases List.mem_cons.mp hp with hp | hp
        · subst hp; simp at hc
        · exact List.mem_cons_of_mem x (ih hp hc)
      · rw [pySplit, if_neg hx] at hp
        rcases he : pySplit sep xs with _ | ⟨y, ys⟩
        · rw [he] at hp
          simp at hp; subst hp
          rcases List.mem_cons.mp hc with hc | hc
          · exact hc ▸ List.mem_cons_self x xs
          · exact absurd hc (List.not_mem_nil c)
        · rw [he] at hp
          rcases List.mem_cons.mp hp with hp | hp
          · subst hp
            rcases List.mem_cons.mp hc with hc | hc
            · exact hc ▸ List.mem_cons_self x xs
            · exact List.mem_cons_of_mem x (ih (he ▸ List.mem_cons_self y ys) hc)
          · exact List.mem_cons_of_mem x (ih (he ▸ List.mem_cons_of_mem y hp) hc)

theorem splitFirst_append {sep : Char} {l1 l2 : List Char} (h : sep ∉ l1) :
    splitFirst sep (l1 ++ sep :: l2) = (l1, l2) := by
  induction l1 with
  | nil => simp [splitFirst]
  | cons c cs ih =>
      have hc : c ≠ sep := fun he => h (he ▸ List.mem_cons_self c cs)
      have hcs : sep ∉ cs := fun hm => h (List.mem_cons_of_mem c hm)
      rw [List.cons_append, splitFirst, if_neg hc, ih hcs]

theorem dropWhile_eq_self_of_not {p : Char → Bool} {l : List Char}
    (h : ∀ c ∈ l, ¬p c) : l.dropWhile p = l := by
  cases l with
  | nil => rfl
  | cons c cs =>
      rw [List.dropWhile_cons, if_neg]
      simpa using h c (List.mem_cons_self c cs)

theorem pyStripL_eq_self {l : List Char} (h : ∀ c ∈ l, ¬isPyWs c) :
    pyStripL l = l := by
  unfold pyStripL
  rw [dropWhile_eq_self_of_not h, dropWhile_eq_self_of_not, List.reverse_reverse]
  intro c hc
  exact h c (List.mem_reverse.mp hc)

theorem mem_of_mem_pyStripL {c : Char} {l : List Char}
    (h : c ∈ pyStripL l) : c ∈ l := by
  unfold pyStripL at h
  rw [List.mem_reverse] at h
  have h2 := (List.dropWhile_sublist isPyWs).mem h
  rw [List.mem_reverse] at h2
  exact (List.dropWhile_sublist isPyWs).mem h2

theorem tryPatAt_digits {lit : List Char} {k : SepShape} {s ds : List Char}
    (h : tryPatAt lit k s = some ds) : ds ≠ [] ∧ ∀ c ∈ ds, c.isDigit := by
  unfold tryPatAt at h
  split at h
  · exact absurd h (by simp)
  · split at h
    · exact absurd h (by simp)
    · simp only at h
      split at h
      · exact absurd h (by simp)
      · next he =>
          injection h with h
          subst h
          refine ⟨fun hn => he (List.isEmpty_iff.mpr hn),
                  fun c hc => List.mem_takeWhile_imp hc⟩

theorem searchPat_digits {lit : List Char} {k : SepShape} {l ds : List Char}
    (h : searchPat lit k l = some ds) : ds ≠ [] ∧ ∀ c ∈ ds, c.isDigit := by
  induction l with
  | nil => exact absurd h (by simp [searchPat])
  | cons c cs ih =>
      rw [searchPat] at h
      rcases ht : tryPatAt lit k (c :: cs) with _ | ds2 <;> rw [ht] at h
      · exact ih h
      · injection h with h; subst h; exact tryPatAt_digits ht

theorem length_filterMap_eq_length_filter {α β : Type} (f : α → Option β)
    (p : α → Bool) (hf : ∀ x, (f x).isSome = p x) (l : List α) :
    (l.filterMap f).length = (l.filter p).length := by
  induction l with
  | nil => rfl
  | cons x xs ih =>
      rw [List.filterMap_cons, List.filter_cons]
      rcases hx : f x with _ | b
      · have : p x = false := by rw [← hf x, hx]; rfl
        rw [this]; simpa using ih
      · have : p x = true := by rw [← hf x, hx]; rfl
        rw [this]; simp [ih]

theorem runAccounts_ok_spec {net : Nat → AccountNet} {i : Nat}
    {accs : List Account} {agg : RunAgg}
    (h : runAccounts net i accs = .ok agg) :
    agg.success_count = (agg.results.filter (·.success)).length ∧
    agg.fail_count = (agg.results.filter (fun r => !r.success)).length ∧
    agg.results.length = accs.length ∧
    (∀ j (hj : j < accs.length) (hj2 : j < agg.results.length),
       processAccount (i + j) (accs.get ⟨j, hj⟩) (net (i + j)) =
         .ok (agg.results.get ⟨j, hj2⟩)) := by
  induction accs generalizing i agg with
  | nil =>
      rw [runAccounts] at h
      injection h with h
      subst h
      exact ⟨rfl, rfl, rfl, fun j hj => absurd hj (by simp)⟩
  | cons a rest ih =>
      rw [runAccounts] at h
      split at h
      · exact absurd h (by simp)
      rename_i r hp
      split at h
      · exact absurd h (by simp)
      rename_i agg2 hr
      obtain ⟨ih1, ih2, ih3, ih4⟩ := ih hr
      split at h <;> injection h with h <;> subst h <;>
        rename_i hs <;>
        refine ⟨by simp [List.filter_cons, hs, ih1],
                by simp [List.filter_cons, hs, ih2],
                by simp [ih3],
                fun j hj hj2 => ?_⟩ <;>
        match j with
        | 0 => simpa using hp
        | j + 1 =>
            have := ih4 j (by simpa using hj) (by simpa using hj2)
            simpa [Nat.add_comm, Nat.add_assoc, Nat.add_left_comm] using this

/-- C8: the quota formatting used in the notification text is
threshold-correct with thresholds at 1,000 and 1,000,000, formatting to two
decimals with K/M suffixes; in particular 500 → "500", 1500 → "1.50K",
2,500,000 → "2.50M" (boundary values checked on both sides of each
threshold). -/
theorem claim_C8 (q : Int) :
    (q < 1000 → formatQuotaStr q = toString q) ∧
    (1000 ≤ q → q < 1000000 → formatQuotaStr q = fmt2 q.toNat 1000 ++ "K") ∧
    (1000000 ≤ q → formatQuotaStr q = fmt2 q.toNat 1000000 ++ "M") ∧
    formatQuotaStr 500 = "500" ∧ formatQuotaStr 1500 = "1.50K" ∧
    formatQuotaStr 2500000 = "2.50M" ∧ formatQuotaStr 999 = "999" ∧
    formatQuotaStr 1000 = "1.00K" ∧ formatQuotaStr 999999 = "1000.00K" ∧
    formatQuotaStr 1000000 = "1.00M" := by
  refine ⟨fun h1 => ?_, fun h1 h2 => ?_, fun h1 => ?_,
          rfl, rfl, rfl, rfl, rfl, rfl, rfl⟩
  · unfold formatQuotaStr
    rw [if_neg (by omega), if_neg (by omega)]
  · unfold formatQuotaStr
    rw [if_neg (by omega), if_pos h1]
  · unfold formatQuotaStr
    rw [if_pos h1]

theorem claim_C8_witness :
    (1000 : Int) ≤ 1500 ∧ (1500 : Int) < 1000000 ∧
    formatQuotaStr 1500 = fmt2 (1500 : Int).toNat 1000 ++ "K" ∧
    formatQuotaStr 1500 = "1.50K" :=
  ⟨by decide, by decide, (claim_C8 1500).2.1 (by decide) (by decide),
   (claim_C8 1500).2.2.2.2.1⟩

set_option maxRecDepth 8192 in
/-- C5: a check-in response whose body fails JSON parsing (status ≠ 401)
yields `succeeded = false` with a message carrying the status code and the
200-character body preview. -/
theorem claim_C5 (resp : HttpResponse) (hj : resp.json = none)
    (h401 : resp.status ≠ 401) :
    (checkinOfResp resp).success = false ∧
    (checkinOfResp resp).message =
      .str ("响应格式错误 (HTTP " ++ toString resp.status ++ "): " ++
            bodyPreview resp.text) ∧
    List.IsInfix (toString resp.status).data
      ("响应格式错误 (HTTP " ++ toString resp.status ++ "): " ++
       bodyPreview resp.text).data ∧
    List.IsInfix (resp.text.take 200).data
      ("响应格式错误 (HTTP " ++ toString resp.status ++ "): " ++
       bodyPreview resp.text).data := by
  unfold checkinOfResp
  rw [if_neg h401, hj]
  refine ⟨rfl, rfl, ?_, ?_⟩
  · exact ⟨"响应格式错误 (HTTP ".data, ("): " ++ bodyPreview resp.text).data,
           by simp [String.data_append]⟩
  · by_cases ht : resp.text = ""
    · have : (resp.text.take 200).data = [] := by rw [ht]; decide
      rw [this]
      exact List.nil_infix
    · refine ⟨("响应格式错误 (HTTP " ++ toString resp.status ++ "): ").data,
              [], ?_⟩
      simp [String.data_append, bodyPreview, if_neg ht]

set_option maxRecDepth 8192 in
theorem claim_C5_witness :
    (checkinOfResp ⟨503, "Service Unavailable", none⟩).success = false ∧
    (checkinOfResp ⟨503, "Service Unavailable", none⟩).message =
      .str "响应格式错误 (HTTP 503): Service Unavailable" ∧
    List.IsInfix "503".data "响应格式错误 (HTTP 503): Service Unavailable".data ∧
    List.IsInfix "Service Unavailable".data
      "响应格式错误 (HTTP 503): Service Unavailable".data :=
  claim_C5 ⟨503, "Service Unavailable", none⟩ rfl (by decide)

/-- C1 counterexample: for the 200 response with `success=true`,
`message="ok"` and `data=null`, the outcome has `succeeded=true` and null
data fields as the claim says, but its message is NOT taken from the
response's `message` field ("ok"): the `.get` call on the `None` data raises
`AttributeError`, and the catch-all handler overwrites the message with the
`未知错误` text. -/
theorem claim_C1_counterexample :
    (checkinOfResp respNullData).success = true ∧
    olookup [("success", Json.bool true), ("message", Json.str "ok"),
             ("data", Json.null)] "message" = some (.str "ok") ∧
    (checkinOfResp respNullData).message =
      .str "未知错误: \x27NoneType\x27 object has no attribute \x27get\x27" ∧
    (checkinOfResp respNullData).message ≠ .str "ok" ∧
    (checkinOfResp respNullData).checkin_date = .null ∧
    (checkinOfResp respNullData).quota_awarded = .null := by
  refine ⟨rfl, rfl, rfl, ?_, rfl, rfl⟩
  intro h
  exact absurd (congrArg pyStr h) (by decide)

/-- C1 (amended): for an HTTP 200 check-in response with truthy `success`
whose `data` field is absent or a JSON object, the outcome has
`succeeded = true`, message from the response's `message` field (default
`签到成功` when absent), and `checkin_date` / `quota_awarded` from the
nested data object, `None` when absent. (The original claim extended this
to every shape of the `data` field including `null`; the counterexample
shows the message is then overwritten by the exception handler.) -/
theorem claim_C1 (resp : HttpResponse) (o : List (String × Json))
    (hj : resp.json = some (.obj o)) (hs : resp.status = 200)
    (hsuc : pyTruthy (oget o "success" .null) = true) :
    (olookup o "data" = none →
       checkinOfResp resp =
         ⟨true, oget o "message" (.str "签到成功"), .null, .null⟩) ∧
    (∀ dl, olookup o "data" = some (.obj dl) →
       checkinOfResp resp =
         ⟨true, oget o "message" (.str "签到成功"),
          oget dl "checkin_date" .null, oget dl "quota_awarded" .null⟩) := by
  obtain ⟨st, tx, js⟩ := resp
  simp only at hj hs
  subst hj; subst hs
  constructor
  · intro hd
    simp [checkinOfResp, hsuc, hd]
  · intro dl hd
    simp [checkinOfResp, hsuc, hd]

theorem claim_C1_witness :
    checkinOfResp respA =
      ⟨true, .str "ok", .str "2024-01-01", .num 150000⟩ ∧
    formatQuotaStr 150000 = "150.00K" :=
  ⟨(claim_C1 respA
      [("success", .bool true), ("message", .str "ok"),
       ("data", .obj [("checkin_date", .str "2024-01-01"),
                      ("quota_awarded", .num 150000)])]
      rfl rfl rfl).2
      [("checkin_date", .str "2024-01-01"), ("quota_awarded", .num 150000)]
      rfl,
   rfl⟩

/-- C3 counterexample: the input `"x#y"` (with quotes) parses as valid JSON
(a string), yet `parse_accounts` interprets it under the delimited form —
the `return` sits inside the `isinstance(data, list)` branch, so any
non-list JSON value falls through to the `#`-splitting loop and here
produces one (garbled) account. -/
theorem claim_C3_counterexample :
    loadsStrXY "\"x#y\"" = some (.str "x#y") ∧
    parse_accounts loadsStrXY "\"x#y\"" = delimitedParse "\"x#y\"" ∧
    parse_accounts loadsStrXY "\"x#y\"" =
      [⟨.str "\"x", .str "y\"", .str "", none, none⟩] :=
  ⟨rfl, rfl, rfl⟩

/-- C3 (amended): the structured (JSON list) form is attempted first, and
the delimited form applies exactly when the input fails to parse as JSON
*or parses to a non-list value*; an input that parses as a JSON *list* is
never interpreted under the delimited form. -/
theorem claim_C3 (loads : String → Option Json) (s : String) :
    (∀ items, loads s = some (.arr items) → s ≠ "" →
       parse_accounts loads s = items.filterMap accountOfItem) ∧
    (loads s = none → parse_accounts loads s = delimitedParse s) ∧
    (∀ v, loads s = some v → (∀ items, v ≠ .arr items) →
       parse_accounts loads s = delimitedParse s) := by
  refine ⟨fun items hl hs => ?_, fun hl => ?_, fun v hl hv => ?_⟩
  · unfold parse_accounts
    rw [if_neg hs, hl]
  · by_cases hs : s = ""
    · subst hs
      rfl
    · unfold parse_accounts
      rw [if_neg hs, hl]
  · by_cases hs : s = ""
    · subst hs
      rfl
    · unfold parse_accounts
      rw [if_neg hs, hl]
      cases v with
      | arr items => exact absurd rfl (hv items)
      | null => rfl
      | bool b => rfl
      | num n => rfl
      | str s2 => rfl
      | obj o => rfl

theorem claim_C3_witness :
    parse_accounts loadsOneItem "zzz" =
      [⟨.str "https://x", .str "tok", .str "", none, none⟩] :=
  (claim_C3 loadsOneItem "zzz").1
    [.obj [("url", .str "https://x"), ("session", .str "tok")]] rfl
    (by decide)

theorem string_data_ext {a b : String} (h : a.data = b.data) : a = b := by
  cases a; cases b; simp at h; exact congrArg String.mk h

theorem successLine_eq_map (name msg quota cnt : Json) :
    successLine name msg quota cnt =
      (successLine name msg quota .null).map (· ++ cntSuffix cnt) := by
  unfold successLine
  cases hq : pyTruthy quota with
  | false =>
      simp only [Bool.false_eq_true, if_neg]
      cases cnt <;> simp [cntSuffix, Option.map, String.append_assoc]
  | true =>
      simp only [if_pos]
      cases quota <;> cases cnt <;>
        simp [cntSuffix, Option.map, String.append_assoc] <;>
        exact string_data_ext (by simp [String.data_append])

/-- C10: in the formatted notification, the human-scaled quota suffix is
appended to a successful account's line exactly when `quota_awarded` is a
truthy number: a falsy `quota_awarded` (in particular `0` or `None`)
produces the line without any quota amount, and a nonzero numeric quota
appends ` \(+<formatted>\)`. -/
theorem claim_C10 (name msg quota cnt : Json) :
    (pyTruthy quota = false →
       successLine name msg quota cnt =
         some ("✅ *" ++ pyStr name ++ "*: " ++ pyStr msg ++ cntSuffix cnt)) ∧
    (∀ n : Int, quota = .num n → n ≠ 0 →
       successLine name msg quota cnt =
         some ("✅ *" ++ pyStr name ++ "*: " ++ pyStr msg ++ " \\(+" ++
               formatQuotaStr n ++ "\\)" ++ cntSuffix cnt)) ∧
    pyTruthy (.num 0) = false ∧ pyTruthy .null = false := by
  refine ⟨fun hq => ?_, fun n hn hnz => ?_, rfl, rfl⟩
  · rw [successLine_eq_map]
    unfold successLine
    rw [hq]
    simp [Option.map, String.append_assoc]
  · subst hn
    rw [successLine_eq_map]
    unfold successLine
    have hq : pyTruthy (Json.num n) = true := by simp [pyTruthy, hnz]
    rw [hq]
    simp [Option.map, String.append_assoc]

theorem claim_C10_witness :
    successLine (.str "A") (.str "ok") (.num 1500) .null =
      some "✅ *A*: ok \\(+1.50K\\)" ∧
    successLine (.str "A") (.str "ok") (.num 0) .null =
      some "✅ *A*: ok" ∧
    successLine (.str "A") (.str "ok") .null (.num 3) =
      some "✅ *A*: ok 本月已签3天" :=
  ⟨by
     have h := (claim_C10 (.str "A") (.str "ok") (.num 1500) .null).2.1
       1500 rfl (by decide)
     simpa using h,
   by
     have h := (claim_C10 (.str "A") (.str "ok") (.num 0) .null).1 rfl
     simpa using h,
   by
     have h := (claim_C10 (.str "A") (.str "ok") .null (.num 3)).1 rfl
     simpa [cntSuffix, pyStr, pyRepr] using h⟩

/-- C6: user-id derivation is total — it never propagates an exception. A
base64 decode failure yields no identifier, and whenever an identifier is
returned it is a nonempty all-digit capture (the first numeric match of the
fixed patterns over the best-effort-decoded text). -/
theorem claim_C6 (cookie : String) :
    (b64decode (cookie ++ "==") = none →
       extract_user_id_from_session cookie = none) ∧
    (∀ uid, extract_user_id_from_session cookie = some uid →
       uid.data ≠ [] ∧ ∀ c ∈ uid.data, c.isDigit) := by
  constructor
  · intro h
    unfold extract_user_id_from_session
    rw [h]
  · intro uid h
    unfold extract_user_id_from_session at h
    rcases hb : b64decode (cookie ++ "==") with _ | bytes <;> rw [hb] at h
    · exact absurd h (by simp)
    simp only at h
    rcases h1 : searchPat "linuxdo".data .underscoreDash (utf8Ignore bytes)
      with _ | ds <;> rw [h1] at h
    case some =>
        injection h with h; subst h
        exact searchPat_digits h1
    rcases h2 : searchPat "\"id\"".data .colonWs (utf8Ignore bytes)
      with _ | ds <;> rw [h2] at h
    case some =>
        injection h with h; subst h
        exact searchPat_digits h2
    rcases h3 : searchPat "user".data .underscoreDash (utf8Ignore bytes)
      with _ | ds <;> rw [h3] at h
    case some =>
        injection h with h; subst h
        exact searchPat_digits h3
    rcases h4 : searchPat "userid".data .colonWs (utf8Ignore bytes)
      with _ | ds <;> rw [h4] at h
    · exact absurd h (by simp)
    · injection h with h; subst h
      exact searchPat_digits h4

theorem claim_C6_witness :
    extract_user_id_from_session "bGludXhkb185ODg" = some "988" ∧
    "988".data ≠ [] ∧ (∀ c ∈ "988".data, c.isDigit) := by
  refine ⟨by decide, (claim_C6 "bGludXhkb185ODg").2 "988" (by decide)⟩

/-- C7: a delimited two-account input `U1#S1,U2#S2` (whose pieces carry no
commas or surrounding whitespace, with `#`-free URLs, and which does not
parse as a JSON list) yields exactly two accounts in order with empty names
and matching URL/session pairs; the split is on the first `#` of each part
only, so a session token containing `#` keeps its remainder intact. -/
theorem claim_C7 (loads : String → Option Json) (u1 s1 u2 s2 : String)
    (hload : ∀ items,
       loads (u1 ++ "#" ++ s1 ++ "," ++ u2 ++ "#" ++ s2) ≠ some (.arr items))
    (hw : ∀ c ∈ (u1 ++ s1 ++ u2 ++ s2).data, ¬isPyWs c ∧ c ≠ ',')
    (hh1 : '#' ∉ u1.data) (hh2 : '#' ∉ u2.data) :
    parse_accounts loads (u1 ++ "#" ++ s1 ++ "," ++ u2 ++ "#" ++ s2) =
      [⟨.str u1, .str s1, .str "", none, none⟩,
       ⟨.str u2, .str s2, .str "", none, none⟩] := by
  have hmem : ∀ c : Char,
      (c ∈ u1.data ∨ c ∈ s1.data ∨ c ∈ u2.data ∨ c ∈ s2.data) →
      ¬isPyWs c ∧ c ≠ ',' := by
    intro c hc
    apply hw
    simp only [String.data_append, List.mem_append]
    tauto
  have hd : (u1 ++ "#" ++ s1 ++ "," ++ u2 ++ "#" ++ s2).data =
      (u1.data ++ '#' :: s1.data) ++ ',' :: (u2.data ++ '#' :: s2.data) := by
    simp [String.data_append]
  have hne : (u1 ++ "#" ++ s1 ++ "," ++ u2 ++ "#" ++ s2) ≠ "" := by
    apply string_ne_empty_of_data_ne_nil
    rw [hd]
    intro h
    exact absurd (List.append_eq_nil.mp h).2 (by simp)
  unfold parse_accounts
  rw [if_neg hne]
  have hstep : delimitedParse (u1 ++ "#" ++ s1 ++ "," ++ u2 ++ "#" ++ s2) =
      [⟨.str u1, .str s1, .str "", none, none⟩,
       ⟨.str u2, .str s2, .str "", none, none⟩] := by
    unfold delimitedParse
    rw [hd]
    have hc1 : ',' ∉ u1.data ++ '#' :: s1.data := by
      intro hc
      rcases List.mem_append.mp hc with hc | hc
      · exact (hmem ',' (Or.inl hc)).2 rfl
      · rcases List.mem_cons.mp hc with hc | hc
        · exact absurd hc.symm (by decide)
        · exact (hmem ',' (Or.inr (Or.inl hc))).2 rfl
    have hc2 : ',' ∉ u2.data ++ '#' :: s2.data := by
      intro hc
      rcases List.mem_append.mp hc with hc | hc
      · exact (hmem ',' (Or.inr (Or.inr (Or.inl hc)))).2 rfl
      · rcases List.mem_cons.mp hc with hc | hc
        · exact absurd hc.symm (by decide)
        · exact (hmem ',' (Or.inr (Or.inr (Or.inr hc)))).2 rfl
    rw [pySplit_append hc1, pySplit_no_sep hc2]
    have hnws1 : ∀ c ∈ u1.data ++ '#' :: s1.data, ¬isPyWs c := by
      intro c hc
      rcases List.mem_append.mp hc with hc | hc
      · exact (hmem c (Or.inl hc)).1
      · rcases List.mem_cons.mp hc with hc | hc
        · subst hc; decide
        · exact (hmem c (Or.inr (Or.inl hc))).1
    have hnws2 : ∀ c ∈ u2.data ++ '#' :: s2.data, ¬isPyWs c := by
      intro c hc
      rcases List.mem_append.mp hc with hc | hc
      · exact (hmem c (Or.inr (Or.inr (Or.inl hc)))).1
      · rcases List.mem_cons.mp hc with hc | hc
        · subst hc; decide
        · exact (hmem c (Or.inr (Or.inr (Or.inr hc)))).1
    have hcontains1 : (u1.data ++ '#' :: s1.data).contains '#' = true :=
      List.elem_eq_true_of_mem (List.mem_append.mpr (Or.inr (List.mem_cons_self _ _)))
    have hcontains2 : (u2.data ++ '#' :: s2.data).contains '#' = true :=
      List.elem_eq_true_of_mem (List.mem_append.mpr (Or.inr (List.mem_cons_self _ _)))
    simp only [List.filterMap_cons, pyStripL_eq_self hnws1, pyStripL_eq_self hnws2,
               hcontains1, hcontains2, if_pos, splitFirst_append hh1,
               splitFirst_append hh2, List.filterMap_nil]
    have e1 : pyStripL u1.data = u1.data :=
      pyStripL_eq_self (fun c hc => (hmem c (Or.inl hc)).1)
    have e2 : pyStripL s1.data = s1.data :=
      pyStripL_eq_self (fun c hc => (hmem c (Or.inr (Or.inl hc))).1)
    have e3 : pyStripL u2.data = u2.data :=
      pyStripL_eq_self (fun c hc => (hmem c (Or.inr (Or.inr (Or.inl hc)))).1)
    have e4 : pyStripL s2.data = s2.data :=
      pyStripL_eq_self (fun c hc => (hmem c (Or.inr (Or.inr (Or.inr hc)))).1)
    simp only [e1, e2, e3, e4, string_mk_data]
  rcases hl : loads (u1 ++ "#" ++ s1 ++ "," ++ u2 ++ "#" ++ s2) with _ | v
  · exact hstep
  · cases v with
    | arr items => exact absurd hl (hload items)
    | null => exact hstep
    | bool b => exact hstep
    | num n => exact hstep
    | str s3 => exact hstep
    | obj o => exact hstep

theorem claim_C7_witness :
    parse_accounts (fun _ => none) "https://a#tok1,https://b#to#k2" =
      [⟨.str "https://a", .str "tok1", .str "", none, none⟩,
       ⟨.str "https://b", .str "to#k2", .str "", none, none⟩] :=
  claim_C7 (fun _ => none) "https://a" "tok1" "https://b" "to#k2"
    (fun items => by simp) (by decide) (by decide) (by decide)

/-- C9: when the configuration does not parse as a JSON list, each
comma-separated segment yields an account exactly when its stripped form
contains `#` (so `#`-free segments are silently skipped), and a non-empty,
non-JSON configuration containing no `#` at all parses to the empty account
list, which `main` turns into `sys.exit(1)` before any network call (the
result is `configError` for every `net`). -/
theorem claim_C9 (loads : String → Option Json) (s : String)
    (net : Nat → AccountNet)
    (hload : ∀ items, loads s ≠ some (.arr items)) :
    (parse_accounts loads s).length =
      ((pySplit ',' s.data).filter
        (fun p => (pyStripL p).contains '#')).length ∧
    ((∀ c ∈ s.data, c ≠ '#') → s ≠ "" →
       parse_accounts loads s = [] ∧ mainRun loads s net = .configError) := by
  have hdel : ∀ hs : s ≠ "", parse_accounts loads s = delimitedParse s := by
    intro hs
    unfold parse_accounts
    rw [if_neg hs]
    rcases hl : loads s with _ | v
    · rfl
    · cases v with
      | arr items => exact absurd hl (hload items)
      | null => rfl
      | bool b => rfl
      | num n => rfl
      | str s3 => rfl
      | obj o => rfl
  constructor
  · by_cases hs : s = ""
    · subst hs; rfl
    · rw [hdel hs]
      unfold delimitedParse
      apply length_filterMap_eq_length_filter
      intro part
      by_cases hp : '#' ∈ pyStripL part
      · simp [hp]
      · simp [hp]
  · intro hnh hs
    have hempty : parse_accounts loads s = [] := by
      rw [hdel hs]
      unfold delimitedParse
      rw [List.filterMap_eq_nil_iff]
      intro part hpart
      have hnm : '#' ∉ pyStripL part := by
        intro hmem
        exact hnh '#' (mem_of_mem_pySplit hpart (mem_of_mem_pyStripL hmem)) rfl
      simp [hnm]
    refine ⟨hempty, ?_⟩
    unfold mainRun
    rw [if_neg hs, hempty]
    rfl

theorem claim_C9_witness :
    (parse_accounts (fun _ => none) "oops-no-delimiter").length =
      ((pySplit ',' "oops-no-delimiter".data).filter
        (fun p => (pyStripL p).contains '#')).length ∧
    parse_accounts (fun _ => none) "oops-no-delimiter" = [] ∧
    mainRun (fun _ => none) "oops-no-delimiter" (fun _ => ⟨.timeout, .timeout, none⟩) =
      .configError := by
  have h := claim_C9 (fun _ => none) "oops-no-delimiter"
    (fun _ => ⟨.timeout, .timeout, none⟩) (fun items => by simp)
  exact ⟨h.1, h.2 (by decide) (by decide)⟩

theorem filter_length_eq_iff {α : Type} (p : α → Bool) (l : List α) :
    (l.filter p).length = l.length ↔ ∀ a ∈ l, p a := by
  induction l with
  | nil => simp
  | cons a as ih =>
      rw [List.filter_cons]
      by_cases hp : p a
      · simp [hp, ih]
      · rw [if_neg hp, List.length_cons]
        constructor
        · intro h
          have hle := List.length_filter_le p as
          exact absurd h (by omega)
        · intro h
          exact absurd (h a (List.mem_cons_self a as)) (by simpa using hp)

theorem length_filter_add_not {α : Type} (p : α → Bool) (l : List α) :
    (l.filter p).length + (l.filter (fun a => !p a)).length = l.length := by
  induction l with
  | nil => rfl
  | cons a as ih =>
      by_cases hp : p a <;> simp [List.filter_cons, hp] <;> omega

theorem all_fail_iff {l : List AccountResult} :
    (l.filter (fun r => !r.success)).length = l.length ↔
      ∀ r ∈ l, r.success = false := by
  rw [filter_length_eq_iff]
  constructor
  · intro h r hr
    have := h r hr
    simpa using this
  · intro h r hr
    simp [h r hr]

theorem not_all_fail_iff {l : List AccountResult} :
    (¬∀ r ∈ l, r.success = false) ↔ ∃ r ∈ l, r.success = true := by
  constructor
  · intro h
    by_contra h2
    push_neg at h2
    exact h (fun r hr => by simpa using h2 r hr)
  · intro ⟨r, hr, hs⟩ h
    rw [h r hr] at hs
    exact Bool.noConfusion hs

/-- C4: after a full run of the account loop (one that raised no uncaught
exception), `success_count + fail_count = len(accounts) = len(results)`,
each account contributes exactly the outcome of its own iteration, in input
order; and an iteration that reaches its check-in (string url, profile
display step completed) and whose check-in failed never raises — it always
contributes a failed outcome with `quota_awarded` and `checkin_count` both
`None`, so a single account's failure cannot abort the run (only the
success-path display of malformed remote data can). -/
theorem claim_C4 (net : Nat → AccountNet) (accounts : List Account)
    (agg : RunAgg) (h : runAccounts net 1 accounts = .ok agg) :
    agg.success_count + agg.fail_count = accounts.length ∧
    agg.results.length = accounts.length ∧
    (∀ j (hj : j < accounts.length) (hj2 : j < agg.results.length),
       processAccount (1 + j) (accounts.get ⟨j, hj⟩) (net (1 + j)) =
         .ok (agg.results.get ⟨j, hj2⟩)) ∧
    (∀ i (acc : Account) (anet : AccountNet) (u : String),
       acc.url = .str u →
       profileCheck (get_user_info anet.profile) = .ok () →
       (checkin_op anet.checkin).success = false →
       processAccount i acc anet =
         .ok ⟨(if pyTruthy acc.name then acc.name
               else .str ("账号" ++ toString i)),
              false, (checkin_op anet.checkin).message, .null, .null⟩) := by
  obtain ⟨h1, h2, h3, h4⟩ := runAccounts_ok_spec h
  refine ⟨?_, h3, h4, ?_⟩
  · rw [h1, h2, ← h3]
    exact length_filter_add_not (fun r => r.success) agg.results
  · intro i acc anet u hu hprof hfail
    unfold processAccount
    rw [hu, hprof]
    simp only [hfail, Bool.false_eq_true, if_neg, if_false]

theorem claim_C4_witness :
    aggW.success_count + aggW.fail_count = accsW.length ∧
    aggW.results.length = accsW.length ∧
    processAccount 2 (accsW.get ⟨1, by decide⟩) (netW 2) =
      .ok (aggW.results.get ⟨1, by decide⟩) ∧
    processAccount 2 (accsW.get ⟨1, by decide⟩) (netW 2) =
      .ok ⟨.str "账号2", false, .str "请求超时", .null, .null⟩ := by
  have h := claim_C4 netW accsW aggW rfl
  exact ⟨h.1, h.2.1, h.2.2.1 1 (by decide) (by decide),
         h.2.2.2 2 (accsW.get ⟨1, by decide⟩) (netW 2) "https://b"
           rfl rfl rfl⟩

/-- C2 counterexample: the configuration `[]` is valid JSON parsing to an
empty account list — an "empty-but-otherwise-valid run" — yet the process
exits with 1 (`main` treats the empty parse result as a fatal configuration
error at line 466), where the claim requires exit code 0. -/
theorem claim_C2_counterexample :
    loadsEmptyList "[]" = some (.arr []) ∧
    parse_accounts loadsEmptyList "[]" = [] ∧
    mainExitCode
      (mainRun loadsEmptyList "[]" (fun _ => ⟨.timeout, .timeout, none⟩)) = 1 :=
  ⟨rfl, rfl, rfl⟩

/-- C2 (amended): the exit code is 1 when the configuration is missing,
unparseable, or parses to zero accounts (including the valid empty JSON
list); and for a run that completes, the exit code is 1 exactly when every
produced outcome has `succeeded = false` and 0 exactly when at least one
outcome has `succeeded = true`. -/
theorem claim_C2 (loads : String → Option Json) (s : String)
    (net : Nat → AccountNet) :
    (s = "" → mainRun loads s net = .configError) ∧
    (parse_accounts loads s = [] → mainRun loads s net = .configError) ∧
    mainExitCode MainResult.configError = 1 ∧
    (∀ agg e, mainRun loads s net = .completed agg e →
       mainExitCode (mainRun loads s net) = e ∧
       (e = 1 ↔ ∀ r ∈ agg.results, r.success = false) ∧
       (e = 0 ↔ ∃ r ∈ agg.results, r.success = true)) := by
  refine ⟨fun hs => ?_, fun hp => ?_, rfl, fun agg e h => ⟨by rw [h]; rfl, ?_⟩⟩
  · unfold mainRun
    rw [if_pos hs]
  · unfold mainRun
    by_cases hs : s = ""
    · rw [if_pos hs]
    · rw [if_neg hs]
      simp only [hp, List.isEmpty_nil, if_pos]
  · unfold mainRun at h
    split at h
    · exact absurd h (by simp)
    split at h
    · exact absurd h (by simp)
    split at h
    · exact absurd h (by simp)
    rename_i agg2 hrun
    injection h with ha he
    subst ha
    subst he
    obtain ⟨h1, h2, h3, h4⟩ := runAccounts_ok_spec hrun
    have hiff : agg2.fail_count = (parse_accounts loads s).length ↔
        ∀ r ∈ agg2.results, r.success = false := by
      rw [h2, ← h3]
      exact all_fail_iff
    by_cases hf : agg2.fail_count = (parse_accounts loads s).length
    · rw [if_pos hf]
      refine ⟨⟨fun _ => hiff.mp hf, fun _ => rfl⟩,
              fun h10 => absurd h10 (by decide),
              fun hex => absurd (hiff.mp hf) (not_all_fail_iff.mpr hex)⟩
    · rw [if_neg hf]
      refine ⟨⟨fun h01 => absurd h01 (by decide),
               fun hall => absurd (hiff.mpr hall) hf⟩,
              fun _ => not_all_fail_iff.mp (fun hall => hf (hiff.mpr hall)),
              fun _ => rfl⟩

theorem claim_C2_witness :
    mainRun (fun _ => none) "https://a#t" netOne = .completed aggOne 0 ∧
    ((0 : Nat) = 0 ↔ ∃ r ∈ aggOne.results, r.success = true) ∧
    mainExitCode (mainRun (fun _ => none) "https://a#t" netOne) = 0 :=
  ⟨rfl,
   ((claim_C2 (fun _ => none) "https://a#t" netOne).2.2.2 aggOne 0 rfl).2.2,
   rfl⟩
